import Mathlib

/-!
Verification of the coordinate-fusion and wall-inference engine of
`cozmo_fsm/worldmap.py`.

The Python source is shallowly embedded below.  Real-valued quantities
(positions, headings, geometry) are modelled as `ℝ`; Python dictionaries
become association lists with overwrite-in-place semantics; operations that
may raise an uncaught Python exception return `Option` values, `none`
standing for a raised exception.
-/

open Real

/-- Modelled from the spec: `wrap_angle` is imported from
`cozmo_fsm/transform.py`, which is not part of the sources under
verification.  The spec states that angles are normalized (wrapped) to the
interval `(-π, π]`; this is the unique representative `θ - 2πk` in that
interval. -/
noncomputable def wrap_angle (θ : ℝ) : ℝ :=
  θ - 2 * π * (⌈(θ - π) / (2 * π)⌉ : ℤ)

/-- The wrapped angle always lies in `(-π, π]`. -/
theorem wrap_angle_mem (θ : ℝ) : -π < wrap_angle θ ∧ wrap_angle θ ≤ π := by
  have hpi : (0:ℝ) < 2 * π := Real.two_pi_pos
  have hne : (2 * π : ℝ) ≠ 0 := ne_of_gt hpi
  have hup : ((⌈(θ - π) / (2 * π)⌉ : ℤ) : ℝ) < (θ - π) / (2 * π) + 1 :=
    Int.ceil_lt_add_one _
  have hlow : (θ - π) / (2 * π) ≤ ((⌈(θ - π) / (2 * π)⌉ : ℤ) : ℝ) :=
    Int.le_ceil _
  have hexp : 2 * π * ((θ - π) / (2 * π) + 1) = θ + π := by
    field_simp; ring
  have hexp2 : 2 * π * ((θ - π) / (2 * π)) = θ - π := by
    field_simp
  constructor
  · have h3 : 2 * π * ((⌈(θ - π) / (2 * π)⌉ : ℤ) : ℝ) < θ + π := by
      calc 2 * π * ((⌈(θ - π) / (2 * π)⌉ : ℤ) : ℝ)
          < 2 * π * ((θ - π) / (2 * π) + 1) := by
            exact mul_lt_mul_of_pos_left hup hpi
        _ = θ + π := hexp
    unfold wrap_angle
    linarith
  · have h4 : θ - π ≤ 2 * π * ((⌈(θ - π) / (2 * π)⌉ : ℤ) : ℝ) := by
      calc θ - π = 2 * π * ((θ - π) / (2 * π)) := hexp2.symm
        _ ≤ 2 * π * ((⌈(θ - π) / (2 * π)⌉ : ℤ) : ℝ) :=
            mul_le_mul_of_nonneg_left hlow (le_of_lt hpi)
    unfold wrap_angle
    linarith

/-- Wrapping is the identity on angles already in `(-π, π]`. -/
theorem wrap_angle_eq_self {θ : ℝ} (h1 : -π < θ) (h2 : θ ≤ π) :
    wrap_angle θ = θ := by
  have hpi : (0:ℝ) < 2 * π := Real.two_pi_pos
  have hceil : ⌈(θ - π) / (2 * π)⌉ = 0 := by
    rw [Int.ceil_eq_zero_iff]
    constructor
    · rw [lt_div_iff₀ hpi]
      linarith
    · rw [div_le_iff₀ hpi]
      linarith
  unfold wrap_angle
  rw [hceil]
  simp

theorem wrap_angle_zero : wrap_angle 0 = 0 :=
  wrap_angle_eq_self (by linarith [Real.pi_pos]) (by linarith [Real.pi_pos])

/-! ### Association lists

Python `dict`s are modelled as association lists: assignment overwrites in
place when the key is present and appends otherwise (matching `dict`
insertion-order semantics). -/

def alSet {κ α : Type} [DecidableEq κ] (k : κ) (v : α) :
    List (κ × α) → List (κ × α)
  | [] => [(k, v)]
  | (k', v') :: rest =>
      if k' = k then (k, v) :: rest else (k', v') :: alSet k v rest

def alGet {κ α : Type} [DecidableEq κ] (k : κ) : List (κ × α) → Option α
  | [] => none
  | (k', v') :: rest => if k' = k then some v' else alGet k rest

theorem alGet_alSet_self {κ α : Type} [DecidableEq κ] (k : κ) (v : α)
    (m : List (κ × α)) : alGet k (alSet k v m) = some v := by
  induction m with
  | nil => simp [alSet, alGet]
  | cons q rest ih =>
    obtain ⟨k', v'⟩ := q
    by_cases h : k' = k
    · simp [alSet, alGet, h]
    · simp [alSet, alGet, h, ih]

theorem alGet_alSet_ne {κ α : Type} [DecidableEq κ] {k i : κ} (v : α)
    (m : List (κ × α)) (h : k ≠ i) : alGet k (alSet i v m) = alGet k m := by
  induction m with
  | nil => simp [alSet, alGet, Ne.symm h]
  | cons q rest ih =>
    obtain ⟨k', v'⟩ := q
    by_cases hk : k' = i
    · subst hk
      simp [alSet, alGet, Ne.symm h]
    · simp [alSet, alGet, hk, ih]

theorem alSet_alSet_self {κ α : Type} [DecidableEq κ] (k : κ) (v v' : α)
    (m : List (κ × α)) : alSet k v' (alSet k v m) = alSet k v' m := by
  induction m with
  | nil => simp [alSet]
  | cons q rest ih =>
    obtain ⟨k', w⟩ := q
    by_cases h : k' = k
    · simp [alSet, h]
    · simp [alSet, h, ih]

/-! ### Data model

Embedding of the classes of `cozmo_fsm/worldmap.py` and of the external SDK
objects they read. -/

/-- An SDK pose: position, heading (`rotation.angle_z.radians`) and the
coordinate-frame origin it is expressed in.  Modelled from the spec: the SDK
`Pose` class is an external collaborator; two poses can be meaningfully
diffed exactly when they share an origin frame. -/
structure Pose where
  x : ℝ
  y : ℝ
  z : ℝ
  angle_z : ℝ
  origin_id : Nat

/-- Modelled from the spec: SDK pose comparability — poses are comparable
iff they are expressed in the same origin frame. -/
def Pose.is_comparable (p q : Pose) : Bool := p.origin_id == q.origin_id

/-- An SDK light-cube handle (`cozmo.objects.LightCube`): `hid` models
Python object identity, `pose` may be absent (`None`). -/
structure CubeHandle where
  hid : Nat
  pose : Option Pose
  is_visible : Bool

/-- An SDK custom-object handle (`cozmo.objects.CustomObject`). -/
structure CustomHandle where
  hid : Nat
  pose : Option Pose
  is_visible : Bool
  object_type : Nat

/-- Kind-specific payload of a world-map entity (the subclass-only fields of
`WallObj`, `LightCubeObj`, `CustomCubeObj`). -/
inductive EntityData where
  | wall (length height door_width door_height : ℝ)
  | lightCube (hid : Nat) (size : ℝ × ℝ × ℝ)
  | customCube (hid : Nat) (size : ℝ × ℝ × ℝ)

/-- A world-map entity: the `WorldObject` base fields (`id`, `x`, `y`, `z`,
`obstacle`, `is_visible`) plus the subclass fields `theta` and the
kind-specific data. -/
structure WorldEntity where
  oid : Nat
  x : ℝ
  y : ℝ
  z : ℝ
  theta : ℝ
  obstacle : Bool
  is_visible : Bool
  data : EntityData

/-- `WallObj.__init__`: the base is initialized with `z = 0`, then `z` is
overwritten with `height/2`; `obstacle` is `True` and `is_visible` `False`
from the base initializer. -/
noncomputable def mkWallObj (id : Nat)
    (x y theta length height door_width door_height : ℝ) : WorldEntity :=
  { oid := id, x := x, y := y, z := height / 2, theta := theta,
    obstacle := true, is_visible := false,
    data := EntityData.wall length height door_width door_height }

/-- `LightCubeObj.__init__` as invoked by `update_cube`
(`LightCubeObj(cube, id)`): position and heading default to `0`, the size is
the fixed `light_cube_size = (44, 44, 44)` and the visibility flag is copied
from the handle. -/
noncomputable def mkLightCubeObj (cube : CubeHandle) (id : Nat) : WorldEntity :=
  { oid := id, x := 0, y := 0, z := 0, theta := 0,
    obstacle := true, is_visible := cube.is_visible,
    data := EntityData.lightCube cube.hid (44, 44, 44) }

/-- `CustomCubeObj.__init__` as invoked by `update_custom_object`
(`CustomCubeObj(sdk_obj, id)`): there `id` is `sdk_obj.object_type`, a
`CustomObjectType` and not a `CustomObject`, and no explicit size is passed,
so the constructor's size logic falls through to the `(50, 50, 50)`
default. -/
noncomputable def mkCustomCubeObj (sdk_obj : CustomHandle) (id : Nat) :
    WorldEntity :=
  { oid := id, x := 0, y := 0, z := 0, theta := 0,
    obstacle := true, is_visible := sdk_obj.is_visible,
    data := EntityData.customCube sdk_obj.hid (50, 50, 50) }

/-- Keys of the world map's `objects` dict: cube and custom-object handles
(Python keys them by object identity) or a wall identifier. -/
inductive ObjKey where
  | cube (hid : Nat)
  | custom (hid : Nat)
  | wall (id : Nat)
deriving DecidableEq

/-- The world map's `objects` dict. -/
abbrev ObjMap : Type := List (ObjKey × WorldEntity)

/-- The robot-side inputs read by the world map: the raw SDK pose
`robot.pose`, the particle-filter pose estimate
`robot.world.particle_filter.pose`, and the cube tracking collection
`robot.world.light_cubes`. -/
structure RobotState where
  pose : Pose
  pf_x : ℝ
  pf_y : ℝ
  pf_theta : ℝ
  light_cubes : List (Nat × CubeHandle)

/-- `WorldMap.vision_z_fudge`: Cozmo underestimates object z by about this
much. -/
noncomputable def vision_z_fudge : ℝ := 10

/-- `WorldMap.update_coords`: recompute a stored entity's world pose from
the handle's (relative) pose and the agent's pose.  `sdk_obj.pose -
robot.pose` is the SDK's componentwise position difference, giving the raw
relative displacement `(dx, dy)`. -/
noncomputable def update_coords (robot : RobotState) (world_obj : WorldEntity)
    (objPose : Pose) (objVisible : Bool) : WorldEntity :=
  let dx := objPose.x - robot.pose.x
  let dy := objPose.y - robot.pose.y
  let orient_diff := wrap_angle (robot.pf_theta - robot.pose.angle_z)
  let osin := Real.sin orient_diff
  let ocos := Real.cos orient_diff
  let wx := dx * ocos + dy * osin
  let wy := dx * -osin + dy * ocos
  { world_obj with
    x := robot.pf_x + wx
    y := robot.pf_y + wy
    z := objPose.z + vision_z_fudge
    theta := wrap_angle (objPose.angle_z + orient_diff)
    is_visible := objVisible }

/-- `WorldMap.update_cube`.  `none` models an uncaught Python exception:
when the cube has a comparable pose, is not yet in `objects`, and is not a
value of `robot.world.light_cubes`, the generator expression yields an empty
tuple and the `[0]` subscript raises `IndexError`. -/
noncomputable def update_cube (robot : RobotState) (objects : ObjMap)
    (cube : CubeHandle) : Option ObjMap :=
  match cube.pose with
  | none => some objects
  | some p =>
    if p.is_comparable robot.pose then
      match alGet (ObjKey.cube cube.hid) objects with
      | some world_obj =>
          some (alSet (ObjKey.cube cube.hid)
            (update_coords robot world_obj p cube.is_visible) objects)
      | none =>
          match robot.light_cubes.filter (fun kv => kv.2.hid == cube.hid) with
          | [] => none
          | (key, _) :: _ =>
              some (alSet (ObjKey.cube cube.hid)
                (update_coords robot (mkLightCubeObj cube key) p
                  cube.is_visible) objects)
    else some objects

/-- `WorldMap.update_custom_object`.  Unlike `update_cube`, the guard reads
`sdk_obj.pose.is_comparable(...)` without first checking `sdk_obj.pose is
None`, so an absent pose raises `AttributeError` (modelled as `none`). -/
noncomputable def update_custom_object (robot : RobotState) (objects : ObjMap)
    (sdk_obj : CustomHandle) : Option ObjMap :=
  match sdk_obj.pose with
  | none => none
  | some p =>
    if p.is_comparable robot.pose then
      match alGet (ObjKey.custom sdk_obj.hid) objects with
      | some world_obj =>
          some (alSet (ObjKey.custom sdk_obj.hid)
            (update_coords robot world_obj p sdk_obj.is_visible) objects)
      | none =>
          some (alSet (ObjKey.custom sdk_obj.hid)
            (update_coords robot (mkCustomCubeObj sdk_obj sdk_obj.object_type)
              p sdk_obj.is_visible) objects)
    else some objects

/-- Payload of an `EvtObjectObserved` event, dispatched on by
`handle_object_observed` via `isinstance`. -/
inductive ObservedObj where
  | lightCube (c : CubeHandle)
  | customObj (h : CustomHandle)

/-- `WorldMap.handle_object_observed`. -/
noncomputable def handle_object_observed (robot : RobotState)
    (objects : ObjMap) : ObservedObj → Option ObjMap
  | ObservedObj.lightCube c => update_cube robot objects c
  | ObservedObj.customObj h => update_custom_object robot objects h

/-! ### Wall specification and catalog -/

/-- A marker entry of `WallSpec.markers`: the value is subscripted as
`markers[m_id][1][0]` by `infer_wall`, i.e. it is a pair of a marker-local
pose-estimate placeholder and an offset tuple whose first component is the
offset along the wall. -/
structure MarkerInfo where
  place : Unit
  offs : ℝ × ℝ

/-- Static wall specification (`WallSpec`): geometry, the marker table, the
doorway list, and the derived identifier. -/
structure WallSpec where
  length : ℝ
  height : ℝ
  door_width : ℝ
  door_height : ℝ
  markers : List (Nat × MarkerInfo)
  doorways : List Nat
  id : Nat

/-- The global `wall_marker_dict` catalog: marker id → `WallSpec`. -/
abbrev Catalog : Type := List (Nat × WallSpec)

/-- Python's `min` over a list of marker ids; `min([])` raises
`ValueError` (`none`). -/
def listMin : List Nat → Option Nat
  | [] => none
  | x :: xs => some (xs.foldl min x)

/-- `WallSpec.__init__`: build the spec, derive `id = min(markers.keys())`,
then register every marker id into the global catalog.  With an empty marker
table, `min([])` raises `ValueError` before the registration loop runs, so
the catalog is returned unchanged with no spec (`none`). -/
noncomputable def mkWallSpec (length height door_width door_height : ℝ)
    (markers : List (Nat × MarkerInfo)) (doorways : List Nat)
    (catalog : Catalog) : Option WallSpec × Catalog :=
  let ids := markers.map Prod.fst
  match listMin ids with
  | none => (none, catalog)
  | some i =>
    let spec : WallSpec :=
      { length := length, height := height, door_width := door_width,
        door_height := door_height, markers := markers,
        doorways := doorways, id := i }
    (some spec, ids.foldl (fun c id => alSet id spec c) catalog)

/-- A landmark estimate `(m_mu, m_orient, m_sigma)` from the particle
filter's sensor model: `mu` holds the mean-position column vector entries
`m_mu[0,0]` and `m_mu[1,0]`, `orient` the orientation; the covariance
`sigma` is never read by the world map. -/
structure MarkerMeasure where
  mu : ℝ × ℝ
  orient : ℝ
  sigma : Unit

/-- `WorldMap.infer_wall`: walk the marker group; the first marker with a
catalog entry determines the wall.  The outer `Option` models an uncaught
exception (`markers[m_id]` raising `KeyError` when the catalog maps a marker
to a spec that does not list it); the inner `Option` is Python's implicit
`None` when the loop falls through. -/
noncomputable def infer_wall (catalog : Catalog) (wid : Nat) :
    List (Nat × MarkerMeasure) → Option (Option WorldEntity)
  | [] => some none
  | (m_id, m_spec) :: rest =>
    match alGet m_id catalog with
    | none => infer_wall catalog wid rest
    | some wall_spec =>
      match alGet m_id wall_spec.markers with
      | none => none
      | some info =>
        let m_x := m_spec.mu.1
        let m_y := m_spec.mu.2
        let dist := wall_spec.length / 2 - info.offs.1
        let wall_orient := m_spec.orient
        -- the call site passes length, height and door_height but omits
        -- door_width, so the WallObj constructor default 75 applies
        some (some (mkWallObj wall_spec.id
          (m_x + dist * Real.cos (wall_orient - π / 2))
          (m_y + dist * Real.sin (wall_orient - π / 2))
          wall_orient wall_spec.length wall_spec.height 75
          wall_spec.door_height))

/-! ### Concrete example inputs shared by the claim theorems below -/

/-- A raw robot pose at the origin of frame 0, heading 0. -/
noncomputable def exPose0 : Pose :=
  { x := 0, y := 0, z := 0, angle_z := 0, origin_id := 0 }

/-- Robot with particle-filter pose (100, 50, heading 0) and raw heading 0:
the end-to-end cube-fusion scenario's agent. -/
noncomputable def exRobotC1 : RobotState :=
  { pose := exPose0, pf_x := 100, pf_y := 50, pf_theta := 0,
    light_cubes := [] }

/-- Detected cube pose at raw-frame offset (30, 0, 0), heading π/2. -/
noncomputable def exCubePoseC1 : Pose :=
  { x := 30, y := 0, z := 0, angle_z := π / 2, origin_id := 0 }

/-- A cube handle carrying the scenario pose. -/
noncomputable def exCubeC1 : CubeHandle :=
  { hid := 1, pose := some exCubePoseC1, is_visible := true }

/-- The stored entity the scenario updates. -/
noncomputable def exEntityC1 : WorldEntity := mkLightCubeObj exCubeC1 1

/-! ### Claim C3 -/

/-- Claim C3: for every detection fused by `update_coords`, the entity's
world z coordinate equals the detection's relative z plus the fixed upward
bias `vision_z_fudge = 10`, regardless of the agent's pose and heading
discrepancy. -/
theorem update_coords_z_fudge (robot : RobotState) (w : WorldEntity)
    (p : Pose) (v : Bool) :
    (update_coords robot w p v).z = p.z + vision_z_fudge ∧
    vision_z_fudge = 10 :=
  ⟨rfl, rfl⟩

/-! ### Claim C1 -/

/-- Claim C1: when the agent's best (particle-filter) heading estimate
equals its raw heading — so the pose discrepancy `orient_diff` is zero —
`update_coords` sets the entity's world (x, y) to the agent's world position
plus the raw relative displacement (dx, dy) unchanged, and its world heading
to the detection's relative heading (a normalized angle in `(-π, π]`). -/
theorem update_coords_orient_diff_zero (robot : RobotState) (w : WorldEntity)
    (p : Pose) (v : Bool)
    (h0 : robot.pf_theta = robot.pose.angle_z)
    (hlo : -π < p.angle_z) (hhi : p.angle_z ≤ π) :
    (update_coords robot w p v).x = robot.pf_x + (p.x - robot.pose.x) ∧
    (update_coords robot w p v).y = robot.pf_y + (p.y - robot.pose.y) ∧
    (update_coords robot w p v).theta = p.angle_z := by
  have hd : robot.pf_theta - robot.pose.angle_z = 0 := by
    rw [h0]; ring
  refine ⟨?_, ?_, ?_⟩
  · show robot.pf_x + _ = _
    rw [hd, wrap_angle_zero]
    simp
  · show robot.pf_y + _ = _
    rw [hd, wrap_angle_zero]
    simp
  · show wrap_angle (p.angle_z + wrap_angle (robot.pf_theta - robot.pose.angle_z)) = _
    rw [hd, wrap_angle_zero, add_zero, wrap_angle_eq_self hlo hhi]

/-- Witness for C1, the end-to-end scenario: agent at world pose
(100, 50, heading 0), raw heading 0, cube detected at relative
(dx = 30, dy = 0, heading = π/2); the fused entity sits at (130, 50) with
heading π/2. -/
theorem update_coords_orient_diff_zero_witness :
    (update_coords exRobotC1 exEntityC1 exCubePoseC1 true).x = 130 ∧
    (update_coords exRobotC1 exEntityC1 exCubePoseC1 true).y = 50 ∧
    (update_coords exRobotC1 exEntityC1 exCubePoseC1 true).theta = π / 2 := by
  have hlo : -π < exCubePoseC1.angle_z := by
    show -π < π / 2
    linarith [Real.pi_pos]
  have hhi : exCubePoseC1.angle_z ≤ π := by
    show π / 2 ≤ π
    linarith [Real.pi_pos]
  obtain ⟨hx, hy, ht⟩ :=
    update_coords_orient_diff_zero exRobotC1 exEntityC1 exCubePoseC1 true rfl
      hlo hhi
  refine ⟨?_, ?_, ?_⟩
  · rw [hx]
    show (100 : ℝ) + ((30 : ℝ) - 0) = 130
    norm_num
  · rw [hy]
    show (50 : ℝ) + ((0 : ℝ) - 0) = 50
    norm_num
  · exact ht

/-! ### Claim C2 -/

/-- Claim C2: the wall inferred by `infer_wall` comes from the first marker
in the group that has a catalog entry — markers without a catalog entry
before it, and all markers after it, have no effect — and its pose is
`offset = length/2 - offset_along_wall`, heading the marker's orientation,
and position offset by `offset` at `heading - π/2` from the marker's mean
position. -/
theorem infer_wall_first_usable_marker (catalog : Catalog) (wid : Nat)
    (pre post : List (Nat × MarkerMeasure)) (m_id : Nat) (m : MarkerMeasure)
    (ws : WallSpec) (info : MarkerInfo)
    (hpre : ∀ q ∈ pre, alGet q.1 catalog = (none : Option WallSpec))
    (hm : alGet m_id catalog = some ws)
    (hinfo : alGet m_id ws.markers = some info) :
    infer_wall catalog wid (pre ++ (m_id, m) :: post) =
      some (some (mkWallObj ws.id
        (m.mu.1 + (ws.length / 2 - info.offs.1) * Real.cos (m.orient - π / 2))
        (m.mu.2 + (ws.length / 2 - info.offs.1) * Real.sin (m.orient - π / 2))
        m.orient ws.length ws.height 75 ws.door_height)) := by
  induction pre with
  | nil =>
    simp only [List.nil_append, infer_wall, hm, hinfo]
  | cons q rest ih =>
    obtain ⟨qid, qm⟩ := q
    have hq : alGet qid catalog = (none : Option WallSpec) :=
      hpre (qid, qm) (by simp)
    simp only [List.cons_append, infer_wall, hq]
    exact ih (fun r hr => hpre r (by simp [hr]))

/-- Marker-table entry for the scenario wall: offset along the wall 20. -/
noncomputable def exInfo : MarkerInfo := { place := (), offs := (20, 0) }

/-- The scenario `WallSpec`: length 200, marker 7 at offset 20 (identifier
7, the only marker). -/
noncomputable def exWS : WallSpec :=
  { length := 200, height := 210, door_width := 75, door_height := 105,
    markers := [(7, exInfo)], doorways := [], id := 7 }

/-- A catalog holding the scenario wall under marker id 7. -/
noncomputable def exCatC2 : Catalog := [(7, exWS)]

/-- Marker 7 observed at mean position (10, 0) with orientation 0. -/
noncomputable def exMeasC2 : MarkerMeasure :=
  { mu := (10, 0), orient := 0, sigma := () }

/-- Witness for C2, the end-to-end scenario: a wall of length 200 whose
marker 7 has offset 20, with the marker observed at (10, 0) and orientation
0, is inferred at x = 10, y = -80, heading 0. -/
theorem infer_wall_first_usable_marker_witness :
    infer_wall exCatC2 7 [(7, exMeasC2)] =
      some (some (mkWallObj 7 10 (-80) 0 200 210 75 105)) := by
  have h := infer_wall_first_usable_marker exCatC2 7 [] [] 7 exMeasC2 exWS
    exInfo (by simp) rfl rfl
  rw [List.nil_append] at h
  rw [h]
  have hx : exMeasC2.mu.1 +
      (exWS.length / 2 - exInfo.offs.1) * Real.cos (exMeasC2.orient - π / 2)
      = 10 := by
    show (10 : ℝ) + ((200 : ℝ) / 2 - 20) * Real.cos ((0 : ℝ) - π / 2) = 10
    rw [zero_sub, Real.cos_neg, Real.cos_pi_div_two]
    norm_num
  have hy : exMeasC2.mu.2 +
      (exWS.length / 2 - exInfo.offs.1) * Real.sin (exMeasC2.orient - π / 2)
      = -80 := by
    show (0 : ℝ) + ((200 : ℝ) / 2 - 20) * Real.sin ((0 : ℝ) - π / 2) = -80
    rw [zero_sub, Real.sin_neg, Real.sin_pi_div_two]
    norm_num
  rw [hx, hy]
  rfl

/-! ### Claim C4 -/

/-- A robot at the world origin with no tracked cubes. -/
noncomputable def exRobot0 : RobotState :=
  { pose := exPose0, pf_x := 0, pf_y := 0, pf_theta := 0, light_cubes := [] }

/-- A custom-object handle whose pose is absent (`None`). -/
def exCustomNoPose : CustomHandle :=
  { hid := 5, pose := none, is_visible := true, object_type := 3 }

/-- Counterexample to claim C4 as stated: with an absent pose,
`update_custom_object` is not a silent no-op — reading
`sdk_obj.pose.is_comparable` on `None` raises `AttributeError` (modelled by
`none`), which propagates to the caller instead of leaving the map
unchanged. -/
theorem update_custom_object_none_pose_raises :
    update_custom_object exRobot0 [] exCustomNoPose = none := rfl

/-- Claim C4 amended: `update_cube` is a silent no-op when the handle's pose
is absent or not comparable to the agent's pose, and `update_custom_object`
is a silent no-op when its pose is present but not comparable; with an
absent pose, however, `update_custom_object` raises instead of skipping. -/
theorem skip_semantics_amended (robot : RobotState) (objects : ObjMap)
    (cube : CubeHandle) (h : CustomHandle) :
    (cube.pose = none → update_cube robot objects cube = some objects) ∧
    (∀ p, cube.pose = some p → p.is_comparable robot.pose = false →
      update_cube robot objects cube = some objects) ∧
    (∀ p, h.pose = some p → p.is_comparable robot.pose = false →
      update_custom_object robot objects h = some objects) ∧
    (h.pose = none → update_custom_object robot objects h = none) := by
  refine ⟨?_, ?_, ?_, ?_⟩
  · intro hp
    simp [update_cube, hp]
  · intro p hp hcmp
    simp [update_cube, hp, hcmp]
  · intro p hp hcmp
    simp [update_custom_object, hp, hcmp]
  · intro hp
    simp [update_custom_object, hp]

/-- A pose expressed in a different origin frame than the robot's. -/
noncomputable def exPoseFar : Pose :=
  { x := 0, y := 0, z := 0, angle_z := 0, origin_id := 1 }

/-- A cube handle with an incomparable (cross-origin) pose. -/
noncomputable def exCubeFar : CubeHandle :=
  { hid := 3, pose := some exPoseFar, is_visible := true }

/-- A custom handle with an incomparable (cross-origin) pose. -/
noncomputable def exCustomFar : CustomHandle :=
  { hid := 4, pose := some exPoseFar, is_visible := true, object_type := 2 }

/-- Witness for the amended C4: a cube with a cross-origin pose is skipped,
a custom object with a cross-origin pose is skipped, and a custom object
with an absent pose raises. -/
theorem skip_semantics_amended_witness :
    update_cube exRobot0 [] exCubeFar = some [] ∧
    update_custom_object exRobot0 [] exCustomFar = some [] ∧
    update_custom_object exRobot0 [] exCustomNoPose = none := by
  refine ⟨?_, ?_, ?_⟩
  · exact (skip_semantics_amended exRobot0 [] exCubeFar exCustomFar).2.1
      exPoseFar rfl rfl
  · exact (skip_semantics_amended exRobot0 [] exCubeFar exCustomFar).2.2.1
      exPoseFar rfl rfl
  · exact (skip_semantics_amended exRobot0 [] exCubeFar
      exCustomNoPose).2.2.2 rfl

/-! ### Claim C5 -/

/-- Marker 7 observed with an orientation of 7 radians — outside
`(-π, π]`. -/
noncomputable def exMeas7 : MarkerMeasure :=
  { mu := (10, 0), orient := 7, sigma := () }

/-- The wall `infer_wall` produces from that observation: its heading is the
raw orientation 7, copied without normalization. -/
noncomputable def exBadWall : WorldEntity :=
  mkWallObj 7 (10 + (200 / 2 - 20) * Real.cos (7 - π / 2))
    (0 + (200 / 2 - 20) * Real.sin (7 - π / 2)) 7 200 210 75 105

/-- Counterexample to claim C5 as stated: `infer_wall` copies the observed
marker orientation onto the wall entity without wrapping, so an orientation
of 7 radians yields a stored heading of 7, which exceeds π and violates the
normalization invariant. -/
theorem infer_wall_heading_unnormalized_cex :
    infer_wall exCatC2 7 [(7, exMeas7)] = some (some exBadWall) ∧
    ¬ (exBadWall.theta ≤ π) := by
  constructor
  · rfl
  · show ¬ ((7 : ℝ) ≤ π)
    push_neg
    linarith [Real.pi_le_four]

/-- Claim C5 amended: `update_coords` always produces a heading in
`(-π, π]` (it wraps), but `infer_wall` copies the marker orientation
unwrapped, so a wall's heading is normalized only when every observed
orientation in the group already is. -/
theorem heading_invariant_amended (robot : RobotState) (w : WorldEntity)
    (p : Pose) (v : Bool) (catalog : Catalog) (wid : Nat)
    (markers : List (Nat × MarkerMeasure)) (wall : WorldEntity)
    (hm : ∀ q ∈ markers, -π < q.2.orient ∧ q.2.orient ≤ π)
    (hw : infer_wall catalog wid markers = some (some wall)) :
    (-π < (update_coords robot w p v).theta ∧
      (update_coords robot w p v).theta ≤ π) ∧
    (-π < wall.theta ∧ wall.theta ≤ π) := by
  constructor
  · exact wrap_angle_mem _
  · induction markers with
    | nil => simp [infer_wall] at hw
    | cons q rest ih =>
      obtain ⟨qid, qm⟩ := q
      rw [infer_wall] at hw
      cases hcat : alGet qid catalog with
      | none =>
        rw [hcat] at hw
        exact ih (fun r hr => hm r (by simp [hr])) hw
      | some ws =>
        rw [hcat] at hw
        dsimp only at hw
        cases hinfo : alGet qid ws.markers with
        | none =>
          rw [hinfo] at hw
          exact absurd hw (by simp)
        | some info =>
          rw [hinfo] at hw
          dsimp only at hw
          simp only [Option.some.injEq] at hw
          have hth : wall.theta = qm.orient := by
            rw [← hw]; rfl
          rw [hth]
          exact hm (qid, qm) (by simp)

/-- Witness for the amended C5: with the scenario marker (orientation 0,
which is normalized) and any fused detection, both produced headings lie in
`(-π, π]`. -/
theorem heading_invariant_amended_witness :
    (-π < (update_coords exRobotC1 exEntityC1 exCubePoseC1 true).theta ∧
      (update_coords exRobotC1 exEntityC1 exCubePoseC1 true).theta ≤ π) ∧
    (-π < (mkWallObj 7 10 (-80) 0 200 210 75 105).theta ∧
      (mkWallObj 7 10 (-80) 0 200 210 75 105).theta ≤ π) := by
  have hm : ∀ q ∈ [((7 : Nat), exMeasC2)], -π < q.2.orient ∧ q.2.orient ≤ π := by
    intro q hq
    simp only [List.mem_singleton] at hq
    subst hq
    constructor
    · show -π < (0 : ℝ)
      linarith [Real.pi_pos]
    · show (0 : ℝ) ≤ π
      linarith [Real.pi_pos]
  exact heading_invariant_amended exRobotC1 exEntityC1 exCubePoseC1 true
    exCatC2 7 [(7, exMeasC2)] (mkWallObj 7 10 (-80) 0 200 210 75 105) hm
    infer_wall_first_usable_marker_witness

/-! ### Claim C6 -/

/-- The door width carried by a wall entity, if it is a wall. -/
def wallDoorWidth (e : WorldEntity) : Option ℝ :=
  match e.data with
  | EntityData.wall _ _ dw _ => some dw
  | _ => none

/-- A `WallSpec` like the scenario one but with a non-default door width of
80. -/
noncomputable def exWS80 : WallSpec :=
  { length := 200, height := 210, door_width := 80, door_height := 105,
    markers := [(7, exInfo)], doorways := [], id := 7 }

/-- The wall `infer_wall` produces from `exWS80` and the scenario
observation. -/
noncomputable def exWall80 : WorldEntity :=
  mkWallObj 7 (10 + (200 / 2 - 20) * Real.cos (0 - π / 2))
    (0 + (200 / 2 - 20) * Real.sin (0 - π / 2)) 0 200 210 75 105

/-- Claim C6 is right and the code is wrong: the spec's door width is 80,
but the call in `infer_wall` passes `length`, `height` and `door_height`
while omitting `door_width`, so the produced wall silently carries the
`WallObj` constructor default 75 instead of the spec's 80. -/
theorem infer_wall_drops_door_width :
    exWS80.door_width = 80 ∧
    infer_wall [(7, exWS80)] 7 [(7, exMeasC2)] = some (some exWall80) ∧
    wallDoorWidth exWall80 = some 75 ∧ (75 : ℝ) ≠ 80 := by
  refine ⟨rfl, rfl, rfl, by norm_num⟩

/-! ### Claims C7 and C8 -/

theorem foldl_min_le (xs : List Nat) (x : Nat) :
    xs.foldl min x ≤ x ∧ ∀ y ∈ xs, xs.foldl min x ≤ y := by
  induction xs generalizing x with
  | nil => simp
  | cons a rest ih =>
    simp only [List.foldl_cons]
    have h := ih (min x a)
    constructor
    · exact le_trans h.1 (min_le_left x a)
    · intro y hy
      rcases List.mem_cons.mp hy with h1 | h1
      · rw [h1]
        exact le_trans h.1 (min_le_right x a)
      · exact h.2 y h1

theorem foldl_min_mem (xs : List Nat) (x : Nat) :
    xs.foldl min x = x ∨ xs.foldl min x ∈ xs := by
  induction xs generalizing x with
  | nil => left; rfl
  | cons a rest ih =>
    simp only [List.foldl_cons]
    rcases ih (min x a) with h | h
    · rw [h]
      rcases Nat.le_total x a with hxa | hax
      · left
        exact min_eq_left hxa
      · right
        rw [min_eq_right hax]
        exact List.mem_cons_self a rest
    · right
      exact List.mem_cons_of_mem a h

/-- Python's `min` over a nonempty id list is a member and a lower bound. -/
theorem listMin_spec (ids : List Nat) (i : Nat) (h : listMin ids = some i) :
    i ∈ ids ∧ ∀ y ∈ ids, i ≤ y := by
  cases ids with
  | nil => exact absurd h (by simp [listMin])
  | cons z zs =>
    simp only [listMin, Option.some.injEq] at h
    subst h
    constructor
    · rcases foldl_min_mem zs z with h1 | h1
      · rw [h1]
        exact List.mem_cons_self z zs
      · exact List.mem_cons_of_mem z h1
    · intro y hy
      rcases List.mem_cons.mp hy with h1 | h1
      · subst h1
        exact (foldl_min_le zs y).1
      · exact (foldl_min_le zs z).2 y h1

/-- Looking up after folding a registration loop: every id in the loop maps
to the registered spec, everything else is untouched. -/
theorem alGet_foldl_alSet {α : Type} (spec : α) (ids : List Nat)
    (c : List (Nat × α)) (k : Nat) :
    alGet k (ids.foldl (fun acc i => alSet i spec acc) c) =
      if k ∈ ids then some spec else alGet k c := by
  induction ids generalizing c with
  | nil => simp
  | cons i rest ih =>
    simp only [List.foldl_cons]
    rw [ih]
    by_cases hk : k ∈ rest
    · simp [hk]
    · by_cases hki : k = i
      · subst hki
        simp [hk, alGet_alSet_self]
      · simp [hk, hki, alGet_alSet_ne spec c hki]

/-- A successful `WallSpec` construction derives its id from `min` over its
marker ids and registers every marker id to itself in the catalog. -/
theorem mkWallSpec_spec (l ht dw dh : ℝ) (ms : List (Nat × MarkerInfo))
    (ds : List Nat) (c : Catalog) (s : WallSpec) (c1 : Catalog)
    (h : mkWallSpec l ht dw dh ms ds c = (some s, c1)) :
    (s.id ∈ ms.map Prod.fst ∧ ∀ m ∈ ms.map Prod.fst, s.id ≤ m) ∧
    ∀ m ∈ ms.map Prod.fst, alGet m c1 = some s := by
  simp only [mkWallSpec] at h
  cases hmin : listMin (ms.map Prod.fst) with
  | none =>
    rw [hmin] at h
    simp at h
  | some i =>
    rw [hmin] at h
    dsimp only at h
    simp only [Prod.mk.injEq, Option.some.injEq] at h
    obtain ⟨hs, hc⟩ := h
    have hid : s.id = i := by rw [← hs]
    obtain ⟨hmem, hle⟩ := listMin_spec (ms.map Prod.fst) i hmin
    refine ⟨⟨?_, ?_⟩, ?_⟩
    · rw [hid]
      exact hmem
    · intro m hm
      rw [hid]
      exact hle m hm
    · intro m hm
      rw [← hc, alGet_foldl_alSet]
      simp only [hm, if_true]
      rw [hs]

/-- Claim C7: constructing a `WallSpec` with a non-empty marker table sets
its identifier to the minimum marker id, registers every marker id to the
spec in the global catalog, and a later registration for a given marker id
wins over an earlier one. -/
theorem wallspec_registration (l ht dw dh : ℝ)
    (markers : List (Nat × MarkerInfo)) (dws : List Nat) (catalog : Catalog)
    (spec : WallSpec) (cat1 : Catalog)
    (h : mkWallSpec l ht dw dh markers dws catalog = (some spec, cat1)) :
    (spec.id ∈ markers.map Prod.fst ∧
      ∀ m ∈ markers.map Prod.fst, spec.id ≤ m) ∧
    (∀ m ∈ markers.map Prod.fst, alGet m cat1 = some spec) ∧
    (∀ (l2 ht2 dw2 dh2 : ℝ) (markers2 : List (Nat × MarkerInfo))
        (dws2 : List Nat) (spec2 : WallSpec) (cat2 : Catalog),
      mkWallSpec l2 ht2 dw2 dh2 markers2 dws2 cat1 = (some spec2, cat2) →
      ∀ m ∈ markers2.map Prod.fst, alGet m cat2 = some spec2) := by
  refine ⟨(mkWallSpec_spec l ht dw dh markers dws catalog spec cat1 h).1,
          (mkWallSpec_spec l ht dw dh markers dws catalog spec cat1 h).2, ?_⟩
  intro l2 ht2 dw2 dh2 markers2 dws2 spec2 cat2 h2
  exact (mkWallSpec_spec l2 ht2 dw2 dh2 markers2 dws2 cat1 spec2 cat2 h2).2

/-- Marker table {5, 2, 9} (all with the same marker-entry payload). -/
noncomputable def exMarkers3 : List (Nat × MarkerInfo) :=
  [(5, exInfo), (2, exInfo), (9, exInfo)]

/-- The spec constructed from markers {5, 2, 9}: identifier 2. -/
noncomputable def exSpec3 : WallSpec :=
  { length := 100, height := 210, door_width := 75, door_height := 105,
    markers := exMarkers3, doorways := [], id := 2 }

/-- The catalog after registering `exSpec3` into an empty catalog. -/
noncomputable def exCat3 : Catalog :=
  [(5, exSpec3), (2, exSpec3), (9, exSpec3)]

/-- A second spec sharing marker id 5. -/
noncomputable def exSpec5 : WallSpec :=
  { length := 120, height := 210, door_width := 75, door_height := 105,
    markers := [(5, exInfo)], doorways := [], id := 5 }

/-- The catalog after additionally registering `exSpec5`: entry 5 now maps
to the later spec. -/
noncomputable def exCat5 : Catalog :=
  [(5, exSpec5), (2, exSpec3), (9, exSpec3)]

/-- Witness for C7: markers {5, 2, 9} yield identifier 2 and register all
three ids; re-registering marker 5 afterwards makes it map to the newer
spec. -/
theorem wallspec_registration_witness :
    exSpec3.id = 2 ∧
    alGet 5 exCat3 = some exSpec3 ∧
    alGet 9 exCat3 = some exSpec3 ∧
    alGet 5 exCat5 = some exSpec5 := by
  have h1 := wallspec_registration 100 210 75 105 exMarkers3 [] [] exSpec3
    exCat3 rfl
  have hid : exSpec3.id = 2 := by
    have hle2 : exSpec3.id ≤ 2 := h1.1.2 2 (by simp [exMarkers3])
    have hmem := h1.1.1
    have h2ge : 2 ≤ exSpec3.id := by
      simp only [exMarkers3, List.map_cons, List.map_nil,
        List.mem_cons, List.not_mem_nil, or_false] at hmem
      rcases hmem with h | h | h <;> omega
    exact le_antisymm hle2 h2ge
  refine ⟨hid, h1.2.1 5 (by simp [exMarkers3]), h1.2.1 9 (by simp [exMarkers3]), ?_⟩
  exact h1.2.2 120 210 75 105 [(5, exInfo)] [] exSpec5 exCat5 rfl 5 (by simp)

/-- Claim C8: constructing a `WallSpec` with an empty marker table fails
fast — `min([])` raises `ValueError` before the registration loop, so no
spec is produced and the global catalog is unchanged. -/
theorem wallspec_empty_markers_rejected (l ht dw dh : ℝ) (dws : List Nat)
    (catalog : Catalog) :
    mkWallSpec l ht dw dh [] dws catalog = (none, catalog) := rfl

/-! ### Claim C9 -/

/-- `update_coords` recomputes every field it writes from the robot state
and the handle pose alone, so reapplying it to its own output changes
nothing. -/
theorem update_coords_idem (robot : RobotState) (w : WorldEntity)
    (p : Pose) (v : Bool) :
    update_coords robot (update_coords robot w p v) p v =
      update_coords robot w p v := rfl

/-- Claim C9: with unchanged detection data (the same robot state and cube
handle), a second `update_cube` right after a successful one leaves the
object map exactly as the first call left it — no drift from repeated
application, so the event-driven and periodic entry points converge. -/
theorem update_cube_idempotent (robot : RobotState) (objects objects' : ObjMap)
    (cube : CubeHandle) (h : update_cube robot objects cube = some objects') :
    update_cube robot objects' cube = some objects' := by
  unfold update_cube at h ⊢
  cases hp : cube.pose with
  | none => rfl
  | some p =>
    rw [hp] at h
    dsimp only at h ⊢
    by_cases hc : p.is_comparable robot.pose = true
    · rw [if_pos hc] at h ⊢
      cases hg : alGet (ObjKey.cube cube.hid) objects with
      | some w =>
        rw [hg] at h
        dsimp only at h
        simp only [Option.some.injEq] at h
        subst h
        rw [alGet_alSet_self]
        dsimp only
        rw [update_coords_idem, alSet_alSet_self]
      | none =>
        rw [hg] at h
        dsimp only at h
        cases hf : robot.light_cubes.filter (fun kv => kv.2.hid == cube.hid) with
        | nil =>
          rw [hf] at h
          simp at h
        | cons kv rest =>
          rw [hf] at h
          obtain ⟨key, cdata⟩ := kv
          dsimp only at h
          simp only [Option.some.injEq] at h
          subst h
          rw [alGet_alSet_self]
          dsimp only
          rw [update_coords_idem, alSet_alSet_self]
    · rw [if_neg hc]

/-- The scenario object map: the cube's entity stored under its handle. -/
noncomputable def exObjsC9 : ObjMap := [(ObjKey.cube 1, exEntityC1)]

/-- The object map after one successful `update_cube` on the scenario. -/
noncomputable def exObjsC9' : ObjMap :=
  alSet (ObjKey.cube 1)
    (update_coords exRobotC1 exEntityC1 exCubePoseC1 true) exObjsC9

/-- Witness for C9: after one successful scenario update, running
`update_cube` again with the same detection reproduces the same map. -/
theorem update_cube_idempotent_witness :
    update_cube exRobotC1 exObjsC9' exCubeC1 = some exObjsC9' := by
  have h1 : update_cube exRobotC1 exObjsC9 exCubeC1 = some exObjsC9' := rfl
  exact update_cube_idempotent exRobotC1 exObjsC9 exObjsC9' exCubeC1 h1

/-! ### Claim C10 -/

/-- Claim C10: for a cube handle with a comparable pose that is not yet in
the object map and is not a value of the `light_cubes` tracking collection,
the id lookup in `update_cube` subscripts an empty tuple and raises
(`none`) instead of skipping — and so does `handle_object_observed` for a
light-cube event.  First-sighting creation therefore requires the handle to
be registered in the tracking collection. -/
theorem update_cube_unregistered_raises (robot : RobotState)
    (objects : ObjMap) (cube : CubeHandle) (p : Pose)
    (hp : cube.pose = some p)
    (hcmp : p.is_comparable robot.pose = true)
    (habs : alGet (ObjKey.cube cube.hid) objects = none)
    (hreg : ∀ kv ∈ robot.light_cubes, kv.2.hid ≠ cube.hid) :
    update_cube robot objects cube = none ∧
    handle_object_observed robot objects (ObservedObj.lightCube cube) =
      none := by
  have hfilt :
      robot.light_cubes.filter (fun kv => kv.2.hid == cube.hid) = [] := by
    rw [List.filter_eq_nil_iff]
    intro kv hkv
    simpa using hreg kv hkv
  have h1 : update_cube robot objects cube = none := by
    unfold update_cube
    rw [hp]
    dsimp only
    rw [if_pos hcmp, habs]
    dsimp only
    rw [hfilt]
  refine ⟨h1, ?_⟩
  show update_cube robot objects cube = none
  exact h1

/-- A cube handle with a valid pose whose identity 9 is tracked nowhere. -/
noncomputable def exCube9 : CubeHandle :=
  { hid := 9, pose := some exPose0, is_visible := true }

/-- Witness for C10: the unregistered cube makes `update_cube` (and the
observed-event handler) raise on an empty map. -/
theorem update_cube_unregistered_raises_witness :
    update_cube exRobot0 [] exCube9 = none ∧
    handle_object_observed exRobot0 [] (ObservedObj.lightCube exCube9) =
      none := by
  exact update_cube_unregistered_raises exRobot0 [] exCube9 exPose0 rfl rfl rfl
    (by simp [exRobot0])
